import Mathlib

/-!
Verification of the `vorarbeiter` process-supervisor library.

The library consists of three pieces, all in `src/lib.rs`:

* `shutdown_process child kill_timeout poll_interval`: sends `SIGTERM`, then
  polls `child.try_wait()` every `poll_interval` while the elapsed time is
  below `kill_timeout`; on timeout it sends `SIGKILL` and blocks in
  `child.wait()`.
* `Supervisor`: owns a vector of children plus the two durations; its `Drop`
  implementation runs `shutdown_process` on every child in reverse
  registration order, discarding errors.
* `setup_term_flag`: allocates an atomic boolean and registers
  `signal_hook` handlers for `SIGINT`, `SIGTERM` and `SIGQUIT` that set it.

The embedding below models a child process (together with the OS) as an
oracle giving the outcome of every system call the source performs, and
time discretely: the clock advances exactly by the `thread::sleep` calls,
so the polling loop inspects the child at elapsed times `0, p, 2p, ...`.
Every shutdown records an event trace, so ordering and signal-emission
claims are statements about traces.
-/

/-- An OS-level I/O error, abstracted to a numeric code (the source wraps
`nix::Error` values into `io::Error` with kind `Other`). -/
structure IOError where
  code : Nat
  deriving DecidableEq, Repr

/-- The exit status of a child process (`std::process::ExitStatus`),
abstracted to a numeric code. -/
structure ExitStatus where
  code : Int
  deriving DecidableEq, Repr

/-- Rust `std::time::Duration`, measured in nanoseconds. -/
abbrev Duration := Nat

/-- Rust `Duration::from_millis`. -/
def Duration.fromMillis (ms : Nat) : Duration := ms * 1000000

/-- Rust `Duration::from_secs`. -/
def Duration.fromSecs (s : Nat) : Duration := s * 1000000000

/-- The observable behaviour of one child process (together with the OS)
during a single shutdown attempt: the outcome of each system call the
source can make.  `tryWait t` is the answer `child.try_wait()` would give
at elapsed time `t`; `sigterm` and `sigkill` are the outcomes of
`signal::kill` with the respective signal, and `waitRes` the outcome of
the final blocking `child.wait()`. -/
structure ProcessBehavior where
  pid : Int
  sigterm : Except IOError Unit
  tryWait : Nat → Except IOError (Option ExitStatus)
  sigkill : Except IOError Unit
  waitRes : Except IOError ExitStatus

/-- Observable events of a shutdown, tagged with the child's pid and the
elapsed time (nanoseconds since this shutdown started). -/
inductive Event
  | sigterm (pid : Int)
  | poll (pid : Int) (t : Nat)
  | sleep (pid : Int) (t d : Nat)
  | sigkill (pid : Int) (t : Nat)
  | wait (pid : Int) (t : Nat)
  deriving DecidableEq, Repr

/-- Outcome of the polling loop in `shutdown_process`: the child exited and
the loop returns its status, a `try_wait` call failed, or the loop timed
out and control falls through to the `SIGKILL` path. -/
inductive LoopOutcome
  | exited (s : ExitStatus)
  | failed (e : IOError)
  | timedOut
  deriving DecidableEq, Repr

/-- The polling loop of `shutdown_process`:
`while now - start < kill_timeout { if let Some(st) = try_wait()? { return Ok(st) }; sleep(poll_interval) }`.
`e` is the elapsed time; each iteration polls at `e` and sleeps for `p`.
Returns the outcome, the events of the loop, and the elapsed time when the
loop ended.  Termination needs `0 < p`, matching the spec's requirement
that `poll_interval` be positive. -/
def shutdownLoop (beh : ProcessBehavior) (kt p : Nat) (hp : 0 < p) (e : Nat) :
    LoopOutcome × List Event × Nat :=
  if h : e < kt then
    match beh.tryWait e with
    | .error err => (.failed err, [.poll beh.pid e], e)
    | .ok (some s) => (.exited s, [.poll beh.pid e], e)
    | .ok none =>
      let r := shutdownLoop beh kt p hp (e + p)
      (r.1, .poll beh.pid e :: .sleep beh.pid e p :: r.2.1, r.2.2)
  else
    (.timedOut, [], e)
  termination_by kt - e
  decreasing_by omega

/-- Rust `shutdown_process`: send `SIGTERM` (propagating a failure with
`?`), run the polling loop, and if it times out send `SIGKILL`
(propagating a failure) and block in `wait()`.  Returns the Rust result
together with the event trace and the elapsed time at return. -/
def shutdown_process (beh : ProcessBehavior) (kill_timeout poll_interval : Nat)
    (hp : 0 < poll_interval) : Except IOError ExitStatus × List Event × Nat :=
  match beh.sigterm with
  | .error e => (.error e, [.sigterm beh.pid], 0)
  | .ok _ =>
    match shutdownLoop beh kill_timeout poll_interval hp 0 with
    | (.exited s, evs, t) => (.ok s, .sigterm beh.pid :: evs, t)
    | (.failed err, evs, t) => (.error err, .sigterm beh.pid :: evs, t)
    | (.timedOut, evs, t) =>
      match beh.sigkill with
      | .error err => (.error err, .sigterm beh.pid :: evs ++ [.sigkill beh.pid t], t)
      | .ok _ =>
        match beh.waitRes with
        | .error err =>
          (.error err, .sigterm beh.pid :: evs ++ [.sigkill beh.pid t, .wait beh.pid t], t)
        | .ok s =>
          (.ok s, .sigterm beh.pid :: evs ++ [.sigkill beh.pid t, .wait beh.pid t], t)

/-- Rust `Supervisor`: an ordered list of supervised children plus the two
configured durations. -/
structure Supervisor where
  children : List ProcessBehavior
  kill_timeout : Duration
  poll_interval : Duration

/-- Rust `Supervisor::add_child`: `self.children.push(child)`. -/
def Supervisor.add_child (sup : Supervisor) (child : ProcessBehavior) : Supervisor :=
  { sup with children := sup.children ++ [child] }

/-- The loop body of `Drop for Supervisor`: shut each child down in list
order, discarding the `Result` (`let _ = shutdown_process(..)`), keeping
only the observable events. -/
def dropLoop (kt p : Nat) (hp : 0 < p) : List ProcessBehavior → List Event
  | [] => []
  | c :: rest => (shutdown_process c kt p hp).2.1 ++ dropLoop kt p hp rest

/-- Rust `Drop for Supervisor`: iterate the children in reverse order and
run `shutdown_process` on each with the supervisor's configured
`kill_timeout` and `poll_interval`, ignoring all errors.  The model
returns the concatenated event trace of the teardown. -/
def Supervisor.drop (sup : Supervisor) (hp : 0 < sup.poll_interval) : List Event :=
  dropLoop sup.kill_timeout sup.poll_interval hp sup.children.reverse

/-- Rust `Supervisor::new`: empty child list, the given `kill_timeout`,
and `poll_interval` fixed at 100 milliseconds. -/
def Supervisor.new (kill_timeout : Duration) : Supervisor :=
  { children := []
    kill_timeout := kill_timeout
    poll_interval := Duration.fromMillis 100 }

/-- Rust `Default for Supervisor`: `Supervisor::new(Duration::from_secs(10))`. -/
def Supervisor.default : Supervisor := Supervisor.new (Duration.fromSecs 10)

/-- The three signals `setup_term_flag` registers handlers for. -/
inductive Signal
  | SIGINT
  | SIGTERM
  | SIGQUIT
  deriving DecidableEq, Repr

/-- State of the process-wide termination-flag machinery: the value of the
shared atomic boolean and the signals for which
`signal_hook::flag::register` has installed a handler pointing at it. -/
structure TermState where
  flag : Bool
  registered : List Signal
  deriving DecidableEq, Repr

/-- The `for` loop of `setup_term_flag`: register a handler for each signal
in order; on the first failure the `?` operator returns the error, and the
registrations already performed stay in place (the source does no
rollback).  `reg` gives the outcome of `signal_hook::flag::register` for
each signal. -/
def registerLoop (reg : Signal → Except IOError Unit) (st : TermState) :
    List Signal → Except IOError Unit × TermState
  | [] => (.ok (), st)
  | s :: rest =>
    match reg s with
    | .error e => (.error e, st)
    | .ok _ => registerLoop reg { st with registered := st.registered ++ [s] } rest

/-- Rust `setup_term_flag`: allocate an atomic boolean initialized to
`false`, register handlers for `SIGINT`, `SIGTERM` and `SIGQUIT`, and
return `Ok` with the shared flag, or the first registration error.  The
first component is the Rust return value (the flag state on success); the
second is the resulting world state either way, so partial registration is
observable. -/
def setup_term_flag (reg : Signal → Except IOError Unit) :
    Except IOError TermState × TermState :=
  let term : TermState := { flag := false, registered := [] }
  match registerLoop reg term [Signal.SIGINT, Signal.SIGTERM, Signal.SIGQUIT] with
  | (.ok _, st) => (.ok st, st)
  | (.error e, st) => (.error e, st)

/-- Modelled from the spec (behaviour of the external `signal_hook` crate,
not part of this repository's sources): a handler installed by
`signal_hook::flag::register(sig, flag)` stores `true` into the shared
flag when `sig` is delivered; an unregistered signal leaves the state
unchanged. -/
def deliverSignal (st : TermState) (s : Signal) : TermState :=
  if s ∈ st.registered then { st with flag := true } else st

/-- A child process that receives `SIGTERM` successfully and exits
voluntarily at elapsed time `texit` with status `s`: `try_wait` reports
the exit from `texit` on.  Sending `SIGKILL` also succeeds (an exited but
unreaped child is a zombie, to which signals can still be delivered), and
the final `wait` reaps the voluntary status `s`. -/
def exitsAt (pid : Int) (texit : Nat) (s : ExitStatus) : ProcessBehavior :=
  { pid := pid
    sigterm := .ok ()
    tryWait := fun t => .ok (if texit ≤ t then some s else none)
    sigkill := .ok ()
    waitRes := .ok s }

/-- A child process that ignores `SIGTERM` entirely: polling never observes
an exit.  `SIGKILL` delivery succeeds and the final blocking `wait` returns
the status `s` (termination by the forced signal). -/
def ignoresTerm (pid : Int) (s : ExitStatus) : ProcessBehavior :=
  { pid := pid
    sigterm := .ok ()
    tryWait := fun _ => .ok none
    sigkill := .ok ()
    waitRes := .ok s }

/-- When the elapsed time has already reached `kill_timeout`, the polling
loop stops immediately: no poll, no sleep. -/
lemma shutdownLoop_stop (beh : ProcessBehavior) (kt p : Nat) (hp : 0 < p) (e : Nat)
    (he : kt ≤ e) : shutdownLoop beh kt p hp e = (.timedOut, [], e) := by
  rw [shutdownLoop.eq_def]
  simp only [dif_neg (by omega : ¬ e < kt)]

/-- The polling loop only ever emits poll and sleep events (in particular it
never sends a signal and never performs a blocking wait). -/
lemma shutdownLoop_events_shape (beh : ProcessBehavior) (kt p : Nat) (hp : 0 < p) :
    ∀ n e, kt - e ≤ n → ∀ ev ∈ (shutdownLoop beh kt p hp e).2.1,
      (∃ t, ev = Event.poll beh.pid t) ∨ ∃ t d, ev = Event.sleep beh.pid t d := by
  intro n
  induction n with
  | zero =>
    intro e he ev hev
    rw [shutdownLoop_stop beh kt p hp e (by omega)] at hev
    simp at hev
  | succ m ih =>
    intro e he ev hev
    by_cases h : e < kt
    · rw [shutdownLoop.eq_def] at hev
      simp only [dif_pos h] at hev
      rcases htw : beh.tryWait e with err | os
      · simp only [htw] at hev
        simp at hev
        exact Or.inl ⟨e, hev⟩
      · rcases os with _ | s
        · simp only [htw] at hev
          simp at hev
          rcases hev with h1 | h1 | h1
          · exact Or.inl ⟨e, h1⟩
          · exact Or.inr ⟨e, p, h1⟩
          · exact ih (e + p) (by omega) ev h1
        · simp only [htw] at hev
          simp at hev
          exact Or.inl ⟨e, hev⟩
    · rw [shutdownLoop_stop beh kt p hp e (by omega)] at hev
      simp at hev

/-- If some poll time `j * p` falls at or after the child's exit time and
strictly before `kill_timeout`, the loop observes the exit and returns it. -/
lemma shutdownLoop_exits (pid : Int) (texit : Nat) (s : ExitStatus) (kt p : Nat) (hp : 0 < p) :
    ∀ n e, kt - e ≤ n → (∃ j, texit ≤ e + j * p ∧ e + j * p < kt) →
      (shutdownLoop (exitsAt pid texit s) kt p hp e).1 = .exited s := by
  intro n
  induction n with
  | zero =>
    intro e he hj
    obtain ⟨j, hj1, hj2⟩ := hj
    omega
  | succ m ih =>
    intro e he hj
    obtain ⟨j, hj1, hj2⟩ := hj
    have hlt : e < kt := by
      have : e ≤ e + j * p := Nat.le_add_right _ _
      omega
    rw [shutdownLoop.eq_def]
    simp only [dif_pos hlt]
    by_cases hx : texit ≤ e
    · simp [exitsAt, hx]
    · have hj0 : j ≠ 0 := by
        intro h0
        subst h0
        simp at hj1
        omega
      have hmul : e + p + (j - 1) * p = e + j * p := by
        rcases j with _ | j2
        · exact absurd rfl hj0
        · rw [Nat.succ_sub_one, Nat.succ_mul]
          ring
      have hrec : ∃ j2, texit ≤ (e + p) + j2 * p ∧ (e + p) + j2 * p < kt := by
        exact ⟨j - 1, by omega, by omega⟩
      have := ih (e + p) (by omega) hrec
      simp [exitsAt, hx]
      simpa [exitsAt] using this

/-- For a child whose polls never report an exit, the loop always times
out, and it does so at an elapsed time `t` with `kill_timeout ≤ t <
kill_timeout + poll_interval`. -/
lemma shutdownLoop_timeout (beh : ProcessBehavior) (kt p : Nat) (hp : 0 < p)
    (hignore : ∀ t, beh.tryWait t = .ok none) :
    ∀ n e, kt - e ≤ n → e < kt + p →
      (shutdownLoop beh kt p hp e).1 = .timedOut ∧
      kt ≤ (shutdownLoop beh kt p hp e).2.2 ∧ (shutdownLoop beh kt p hp e).2.2 < kt + p := by
  intro n
  induction n with
  | zero =>
    intro e he hlt
    rw [shutdownLoop_stop beh kt p hp e (by omega)]
    refine ⟨rfl, ?_, ?_⟩
    · show kt ≤ e
      omega
    · show e < kt + p
      omega
  | succ m ih =>
    intro e he hlt
    by_cases h : e < kt
    · have hrec := ih (e + p) (by omega) (by omega)
      rw [shutdownLoop.eq_def]
      simp only [dif_pos h, hignore e]
      exact hrec
    · rw [shutdownLoop_stop beh kt p hp e (by omega)]
      refine ⟨rfl, ?_, ?_⟩
      · show kt ≤ e
        omega
      · show e < kt + p
        omega

/-- Unfolding of `shutdown_process` on the early-return path: `SIGTERM`
succeeded and the loop observed a voluntary exit. -/
lemma shutdown_process_exited (beh : ProcessBehavior) (kt p : Nat) (hp : 0 < p)
    (s : ExitStatus) (evs : List Event) (t : Nat) (hterm : beh.sigterm = .ok ())
    (hl : shutdownLoop beh kt p hp 0 = (.exited s, evs, t)) :
    shutdown_process beh kt p hp = (.ok s, .sigterm beh.pid :: evs, t) := by
  simp [shutdown_process, hterm, hl]

/-- Unfolding of `shutdown_process` when a `try_wait` call inside the loop
fails: the error propagates through `?`. -/
lemma shutdown_process_pollFailed (beh : ProcessBehavior) (kt p : Nat) (hp : 0 < p)
    (err : IOError) (evs : List Event) (t : Nat) (hterm : beh.sigterm = .ok ())
    (hl : shutdownLoop beh kt p hp 0 = (.failed err, evs, t)) :
    shutdown_process beh kt p hp = (.error err, .sigterm beh.pid :: evs, t) := by
  simp [shutdown_process, hterm, hl]

/-- Unfolding of `shutdown_process` when the loop times out and the
`SIGKILL` delivery itself fails. -/
lemma shutdown_process_killFailed (beh : ProcessBehavior) (kt p : Nat) (hp : 0 < p)
    (err : IOError) (evs : List Event) (t : Nat) (hterm : beh.sigterm = .ok ())
    (hl : shutdownLoop beh kt p hp 0 = (.timedOut, evs, t)) (hkill : beh.sigkill = .error err) :
    shutdown_process beh kt p hp =
      (.error err, .sigterm beh.pid :: evs ++ [.sigkill beh.pid t], t) := by
  simp [shutdown_process, hterm, hl, hkill]

/-- Unfolding of `shutdown_process` when the loop times out and `SIGKILL`
is delivered: the result is whatever the final blocking `wait` yields. -/
lemma shutdown_process_killed (beh : ProcessBehavior) (kt p : Nat) (hp : 0 < p)
    (evs : List Event) (t : Nat) (hterm : beh.sigterm = .ok ())
    (hl : shutdownLoop beh kt p hp 0 = (.timedOut, evs, t)) (hkill : beh.sigkill = .ok ()) :
    shutdown_process beh kt p hp =
      (match beh.waitRes with
       | .error err => .error err
       | .ok s => .ok s,
       .sigterm beh.pid :: evs ++ [.sigkill beh.pid t, .wait beh.pid t], t) := by
  rcases hw : beh.waitRes with err | s <;> simp [shutdown_process, hterm, hl, hkill, hw]

/-- C1 (amended): for every `kill_timeout ≥ 0` and every process that exits
voluntarily at time `texit` such that some poll observes the exit before the
timeout (`∃ j, texit ≤ j * poll_interval < kill_timeout`, which holds in
particular whenever `texit + poll_interval ≤ kill_timeout`),
`shutdown_process` returns that process's true exit status and never sends
`SIGKILL`.  The proviso is forced by `shutdown_voluntary_exit_cex`: without
it the claim is false. -/
theorem shutdown_voluntary_exit (pid : Int) (texit : Nat) (s : ExitStatus)
    (kt p : Nat) (hp : 0 < p) (hcaught : ∃ j, texit ≤ j * p ∧ j * p < kt) :
    (shutdown_process (exitsAt pid texit s) kt p hp).1 = .ok s ∧
    ∀ t, Event.sigkill pid t ∉ (shutdown_process (exitsAt pid texit s) kt p hp).2.1 := by
  have hex := shutdownLoop_exits pid texit s kt p hp (kt - 0) 0 (le_refl _) (by
    obtain ⟨j, h1, h2⟩ := hcaught
    exact ⟨j, by omega, by omega⟩)
  have hshape := shutdownLoop_events_shape (exitsAt pid texit s) kt p hp (kt - 0) 0 (le_refl _)
  rcases hl : shutdownLoop (exitsAt pid texit s) kt p hp 0 with ⟨out, evs, t⟩
  rw [hl] at hex hshape
  simp at hex
  subst hex
  rw [shutdown_process_exited _ _ _ _ _ _ _ rfl hl]
  refine ⟨rfl, ?_⟩
  intro t2 hmem
  rcases List.mem_cons.mp hmem with h1 | h1
  · simp [exitsAt] at h1
  · have h2 := hshape _ h1
    simp [exitsAt] at h2

/-- C1 counterexample: with `kill_timeout = 2` and `poll_interval = 2`, a
process that exits voluntarily at time `1` — strictly within the kill
timeout — is nevertheless sent the forced signal, because the only poll
happens at time `0` and the next check is already past the timeout.  This
refutes the claim as stated. -/
theorem shutdown_voluntary_exit_cex :
    (1 : Nat) < 2 ∧
    Event.sigkill 1 2 ∈ (shutdown_process (exitsAt 1 1 ⟨0⟩) 2 2 (by decide)).2.1 := by
  refine ⟨by decide, ?_⟩
  simp [shutdown_process, shutdownLoop, exitsAt]

/-- Witness for C1: with `kill_timeout = 1`, `poll_interval = 1` and a
process exiting at time `0`, the hypotheses hold and the conclusion is
obtained from `shutdown_voluntary_exit`. -/
theorem shutdown_voluntary_exit_witness :
    (0 : Nat) < 1 ∧ (∃ j : Nat, 0 ≤ j * 1 ∧ j * 1 < 1) ∧
    ((shutdown_process (exitsAt 1 0 ⟨0⟩) 1 1 Nat.one_pos).1 = .ok ⟨0⟩ ∧
     ∀ t, Event.sigkill 1 t ∉ (shutdown_process (exitsAt 1 0 ⟨0⟩) 1 1 Nat.one_pos).2.1) :=
  ⟨Nat.one_pos, ⟨0, by decide, by decide⟩,
   shutdown_voluntary_exit 1 0 ⟨0⟩ 1 1 Nat.one_pos ⟨0, by decide, by decide⟩⟩

/-- C4: for every process that ignores the graceful signal (polling never
observes an exit), `shutdown_process` sends `SIGKILL` at an elapsed time
`tk` with `kill_timeout ≤ tk ≤ kill_timeout + poll_interval`, never sends it
before `kill_timeout` has elapsed, and then returns the successful exit
status collected by the final blocking wait. -/
theorem shutdown_forced_kill (beh : ProcessBehavior) (kt p : Nat) (s : ExitStatus)
    (hp : 0 < p) (hterm : beh.sigterm = .ok ())
    (hignore : ∀ t, beh.tryWait t = .ok none)
    (hkill : beh.sigkill = .ok ()) (hwait : beh.waitRes = .ok s) :
    ∃ tk, kt ≤ tk ∧ tk ≤ kt + p ∧
      Event.sigkill beh.pid tk ∈ (shutdown_process beh kt p hp).2.1 ∧
      (∀ t2, Event.sigkill beh.pid t2 ∈ (shutdown_process beh kt p hp).2.1 → kt ≤ t2) ∧
      (shutdown_process beh kt p hp).1 = .ok s := by
  have htmo := shutdownLoop_timeout beh kt p hp hignore (kt - 0) 0 (le_refl _) (by omega)
  have hshape := shutdownLoop_events_shape beh kt p hp (kt - 0) 0 (le_refl _)
  rcases hl : shutdownLoop beh kt p hp 0 with ⟨out, evs, t⟩
  rw [hl] at htmo hshape
  obtain ⟨hout, hge, hlt⟩ := htmo
  simp at hout hge hlt
  subst hout
  rw [shutdown_process_killed beh kt p hp evs t hterm hl hkill]
  refine ⟨t, hge, by omega, ?_, ?_, by simp [hwait]⟩
  · simp
  · intro t2 hmem
    simp only [List.mem_cons, List.mem_append, List.not_mem_nil, or_false] at hmem
    rcases hmem with (h1 | h1) | (h1 | h1)
    · simp at h1
    · have h2 := hshape _ h1
      rcases h2 with ⟨t3, h2⟩ | ⟨t3, d3, h2⟩ <;> simp at h2
    · injection h1 with hpid ht
      omega
    · simp at h1

/-- Witness for C4 at `kill_timeout = 0`, `poll_interval = 1` and a child
that ignores `SIGTERM`, via `shutdown_forced_kill`. -/
theorem shutdown_forced_kill_witness :
    (0 : Nat) < 1 ∧
    (∀ t, (ignoresTerm 2 ⟨9⟩).tryWait t = .ok none) ∧
    ∃ tk, 0 ≤ tk ∧ tk ≤ 0 + 1 ∧
      Event.sigkill 2 tk ∈ (shutdown_process (ignoresTerm 2 ⟨9⟩) 0 1 Nat.one_pos).2.1 ∧
      (∀ t2, Event.sigkill 2 t2 ∈ (shutdown_process (ignoresTerm 2 ⟨9⟩) 0 1 Nat.one_pos).2.1 →
        0 ≤ t2) ∧
      (shutdown_process (ignoresTerm 2 ⟨9⟩) 0 1 Nat.one_pos).1 = .ok ⟨9⟩ :=
  ⟨Nat.one_pos, fun _ => rfl,
   shutdown_forced_kill (ignoresTerm 2 ⟨9⟩) 0 1 ⟨9⟩ Nat.one_pos rfl (fun _ => rfl) rfl rfl⟩

/-- C5: with `kill_timeout = 0`, the loop body never runs: the trace is the
`SIGTERM` send followed immediately by the `SIGKILL` send at elapsed time
`0` — no poll and no sleep ever happen — followed at most by the final
wait. -/
theorem shutdown_zero_grace (beh : ProcessBehavior) (p : Nat) (hp : 0 < p)
    (hterm : beh.sigterm = .ok ()) :
    ∃ rest, (shutdown_process beh 0 p hp).2.1 =
      Event.sigterm beh.pid :: Event.sigkill beh.pid 0 :: rest ∧
      ∀ ev ∈ rest, ev = Event.wait beh.pid 0 := by
  have hl := shutdownLoop_stop beh 0 p hp 0 (le_refl 0)
  rcases hk : beh.sigkill with err | u
  · rw [shutdown_process_killFailed beh 0 p hp err [] 0 hterm hl hk]
    exact ⟨[], by simp, by simp⟩
  · cases u
    rw [shutdown_process_killed beh 0 p hp [] 0 hterm hl hk]
    exact ⟨[Event.wait beh.pid 0], by simp, by simp⟩

/-- Witness for C5 at `poll_interval = 1` and a child that ignores
`SIGTERM`, via `shutdown_zero_grace`. -/
theorem shutdown_zero_grace_witness :
    (0 : Nat) < 1 ∧ (ignoresTerm 2 ⟨9⟩).sigterm = .ok () ∧
    ∃ rest, (shutdown_process (ignoresTerm 2 ⟨9⟩) 0 1 Nat.one_pos).2.1 =
      Event.sigterm 2 :: Event.sigkill 2 0 :: rest ∧
      ∀ ev ∈ rest, ev = Event.wait 2 0 :=
  ⟨Nat.one_pos, rfl, shutdown_zero_grace (ignoresTerm 2 ⟨9⟩) 1 Nat.one_pos rfl⟩

/-- C6: every signaling or wait error inside `shutdown_process` aborts the
attempt and is returned to the caller unretried.  In particular: a failing
`SIGTERM` send returns that error immediately with no poll, no `SIGKILL`
and no wait; a failing poll returns its error; a failing `SIGKILL` send
returns its error without reaching the blocking wait; and a failing final
wait returns its error. -/
theorem shutdown_error_propagation (beh : ProcessBehavior) (kt p : Nat) (hp : 0 < p) :
    (∀ er, beh.sigterm = .error er →
      shutdown_process beh kt p hp = (.error er, [Event.sigterm beh.pid], 0)) ∧
    (∀ er, beh.sigterm = .ok () → beh.tryWait 0 = .error er → 0 < kt →
      shutdown_process beh kt p hp =
        (.error er, [Event.sigterm beh.pid, Event.poll beh.pid 0], 0)) ∧
    (∀ er, beh.sigterm = .ok () → (∀ t, beh.tryWait t = .ok none) → beh.sigkill = .error er →
      (shutdown_process beh kt p hp).1 = .error er ∧
      ∀ t, Event.wait beh.pid t ∉ (shutdown_process beh kt p hp).2.1) ∧
    (∀ er, beh.sigterm = .ok () → (∀ t, beh.tryWait t = .ok none) → beh.sigkill = .ok () →
      beh.waitRes = .error er → (shutdown_process beh kt p hp).1 = .error er) := by
  refine ⟨?_, ?_, ?_, ?_⟩
  · intro er h
    simp [shutdown_process, h]
  · intro er ht htw hkt
    have hl : shutdownLoop beh kt p hp 0 = (.failed er, [.poll beh.pid 0], 0) := by
      rw [shutdownLoop.eq_def]
      simp [dif_pos hkt, htw]
    exact shutdown_process_pollFailed beh kt p hp er [Event.poll beh.pid 0] 0 ht hl
  · intro er ht hignore hk
    have htmo := shutdownLoop_timeout beh kt p hp hignore (kt - 0) 0 (le_refl _) (by omega)
    have hshape := shutdownLoop_events_shape beh kt p hp (kt - 0) 0 (le_refl _)
    rcases hl : shutdownLoop beh kt p hp 0 with ⟨out, evs, t⟩
    rw [hl] at htmo hshape
    obtain ⟨hout, hge, hlt⟩ := htmo
    simp at hout
    subst hout
    rw [shutdown_process_killFailed beh kt p hp er evs t ht hl hk]
    refine ⟨rfl, ?_⟩
    intro t2 hmem
    simp only [List.mem_cons, List.mem_append, List.not_mem_nil, or_false] at hmem
    rcases hmem with (h1 | h1) | h1
    · simp at h1
    · have h2 := hshape _ h1
      rcases h2 with ⟨t3, h2⟩ | ⟨t3, d3, h2⟩ <;> simp at h2
    · simp at h1
  · intro er ht hignore hk hw
    have htmo := shutdownLoop_timeout beh kt p hp hignore (kt - 0) 0 (le_refl _) (by omega)
    rcases hl : shutdownLoop beh kt p hp 0 with ⟨out, evs, t⟩
    rw [hl] at htmo
    obtain ⟨hout, hge, hlt⟩ := htmo
    simp at hout
    subst hout
    rw [shutdown_process_killed beh kt p hp evs t ht hl hk]
    simp [hw]

/-- Witness for C6: all four error paths exercised on concrete behaviours,
via `shutdown_error_propagation`. -/
theorem shutdown_error_propagation_witness :
    (0 : Nat) < 1 ∧
    shutdown_process ⟨3, .error ⟨5⟩, fun _ => .ok none, .ok (), .ok ⟨0⟩⟩ 1 1 Nat.one_pos =
      (.error ⟨5⟩, [Event.sigterm 3], 0) ∧
    shutdown_process ⟨4, .ok (), fun _ => .error ⟨6⟩, .ok (), .ok ⟨0⟩⟩ 1 1 Nat.one_pos =
      (.error ⟨6⟩, [Event.sigterm 4, Event.poll 4 0], 0) ∧
    (shutdown_process ⟨5, .ok (), fun _ => .ok none, .error ⟨7⟩, .ok ⟨0⟩⟩ 1 1 Nat.one_pos).1 =
      .error ⟨7⟩ ∧
    (shutdown_process ⟨6, .ok (), fun _ => .ok none, .ok (), .error ⟨8⟩⟩ 1 1 Nat.one_pos).1 =
      .error ⟨8⟩ :=
  ⟨Nat.one_pos,
   (shutdown_error_propagation ⟨3, .error ⟨5⟩, fun _ => .ok none, .ok (), .ok ⟨0⟩⟩
     1 1 Nat.one_pos).1 ⟨5⟩ rfl,
   (shutdown_error_propagation ⟨4, .ok (), fun _ => .error ⟨6⟩, .ok (), .ok ⟨0⟩⟩
     1 1 Nat.one_pos).2.1 ⟨6⟩ rfl rfl Nat.one_pos,
   ((shutdown_error_propagation ⟨5, .ok (), fun _ => .ok none, .error ⟨7⟩, .ok ⟨0⟩⟩
     1 1 Nat.one_pos).2.2.1 ⟨7⟩ rfl (fun _ => rfl) rfl).1,
   (shutdown_error_propagation ⟨6, .ok (), fun _ => .ok none, .ok (), .error ⟨8⟩⟩
     1 1 Nat.one_pos).2.2.2 ⟨8⟩ rfl (fun _ => rfl) rfl rfl⟩

/-- C2: dropping a `Supervisor` with children registered in order
`[a, b, c]` produces exactly the shutdown trace of `c`, then of `b`, then of
`a` — strictly sequential reverse registration order — each invocation
using the supervisor's configured `kill_timeout` and `poll_interval`. -/
theorem supervisor_reverse_order (a b c : ProcessBehavior) (kt p : Duration) (hp : 0 < p) :
    Supervisor.drop { children := [a, b, c], kill_timeout := kt, poll_interval := p } hp =
      (shutdown_process c kt p hp).2.1 ++ (shutdown_process b kt p hp).2.1 ++
        (shutdown_process a kt p hp).2.1 := by
  simp [Supervisor.drop, dropLoop]

/-- Witness for C2 on three concrete children with `kill_timeout = 0`, via
`supervisor_reverse_order`. -/
theorem supervisor_reverse_order_witness :
    (0 : Nat) < 1 ∧
    Supervisor.drop
        { children := [exitsAt 1 0 ⟨0⟩, exitsAt 2 0 ⟨0⟩, exitsAt 3 0 ⟨0⟩],
          kill_timeout := 0, poll_interval := 1 } Nat.one_pos =
      (shutdown_process (exitsAt 3 0 ⟨0⟩) 0 1 Nat.one_pos).2.1 ++
        (shutdown_process (exitsAt 2 0 ⟨0⟩) 0 1 Nat.one_pos).2.1 ++
        (shutdown_process (exitsAt 1 0 ⟨0⟩) 0 1 Nat.one_pos).2.1 :=
  ⟨Nat.one_pos,
   supervisor_reverse_order (exitsAt 1 0 ⟨0⟩) (exitsAt 2 0 ⟨0⟩) (exitsAt 3 0 ⟨0⟩) 0 1 Nat.one_pos⟩

/-- Every process in the list handed to the teardown loop gets its full
`shutdown_process` trace embedded in the teardown trace, regardless of any
errors the other shutdowns produce. -/
lemma dropLoop_mem (kt p : Nat) (hp : 0 < p) :
    ∀ (l : List ProcessBehavior), ∀ c ∈ l,
      ∃ pre post, dropLoop kt p hp l = pre ++ (shutdown_process c kt p hp).2.1 ++ post := by
  intro l
  induction l with
  | nil =>
    intro c hc
    simp at hc
  | cons d rest ih =>
    intro c hc
    rcases List.mem_cons.mp hc with h1 | h1
    · subst h1
      exact ⟨[], dropLoop kt p hp rest, by simp [dropLoop]⟩
    · obtain ⟨pre, post, hpp⟩ := ih c h1
      refine ⟨(shutdown_process d kt p hp).2.1 ++ pre, post, ?_⟩
      simp [dropLoop, hpp]

/-- C3: during teardown every child of the supervisor — with no assumption
whatsoever about the success or failure of any shutdown — has its complete
`shutdown_process` trace embedded in the teardown trace: errors are
discarded, never propagate out of `Supervisor.drop`, and never stop the
teardown early. -/
theorem supervisor_error_isolation (sup : Supervisor) (hp : 0 < sup.poll_interval)
    (c : ProcessBehavior) (hc : c ∈ sup.children) :
    ∃ pre post, Supervisor.drop sup hp =
      pre ++ (shutdown_process c sup.kill_timeout sup.poll_interval hp).2.1 ++ post :=
  dropLoop_mem sup.kill_timeout sup.poll_interval hp sup.children.reverse c
    (List.mem_reverse.mpr hc)

/-- Witness for C3: a supervisor whose first-registered child has a failing
`SIGTERM` send still runs that child's shutdown during teardown, via
`supervisor_error_isolation`. -/
theorem supervisor_error_isolation_witness :
    (0 : Nat) < 1 ∧
    ∃ pre post,
      Supervisor.drop
          { children := [⟨3, .error ⟨5⟩, fun _ => .ok none, .ok (), .ok ⟨0⟩⟩, exitsAt 1 0 ⟨0⟩],
            kill_timeout := 0, poll_interval := 1 } Nat.one_pos =
        pre ++ (shutdown_process (⟨3, .error ⟨5⟩, fun _ => .ok none, .ok (), .ok ⟨0⟩⟩ :
          ProcessBehavior) 0 1 Nat.one_pos).2.1 ++ post :=
  ⟨Nat.one_pos,
   supervisor_error_isolation
     { children := [⟨3, .error ⟨5⟩, fun _ => .ok none, .ok (), .ok ⟨0⟩⟩, exitsAt 1 0 ⟨0⟩],
       kill_timeout := 0, poll_interval := 1 } Nat.one_pos
     ⟨3, .error ⟨5⟩, fun _ => .ok none, .ok (), .ok ⟨0⟩⟩ (by simp)⟩

/-- C7: `Supervisor::new(kill_timeout)` yields an empty child list, the
given kill timeout, and `poll_interval` fixed at 100 ms; the `Default`
constructor is `new(Duration::from_secs(10))`, hence has a 10-second kill
timeout with the same empty list and 100 ms poll interval. -/
theorem supervisor_new_default (kt : Duration) :
    (Supervisor.new kt).children = [] ∧
    (Supervisor.new kt).kill_timeout = kt ∧
    (Supervisor.new kt).poll_interval = Duration.fromMillis 100 ∧
    Supervisor.default = Supervisor.new (Duration.fromSecs 10) ∧
    Supervisor.default.children = [] ∧
    Supervisor.default.kill_timeout = Duration.fromSecs 10 ∧
    Supervisor.default.poll_interval = Duration.fromMillis 100 :=
  ⟨rfl, rfl, rfl, rfl, rfl, rfl, rfl⟩

/-- C9: `Supervisor::add_child` appends the new handle at the end of the
child sequence and changes nothing else: `kill_timeout`, `poll_interval`
and every previously registered child (at its old position) are unchanged. -/
theorem add_child_frame (sup : Supervisor) (c : ProcessBehavior) :
    (sup.add_child c).children = sup.children ++ [c] ∧
    (sup.add_child c).kill_timeout = sup.kill_timeout ∧
    (sup.add_child c).poll_interval = sup.poll_interval ∧
    ∀ i, i < sup.children.length → (sup.add_child c).children[i]? = sup.children[i]? := by
  refine ⟨rfl, rfl, rfl, ?_⟩
  intro i hi
  simp [Supervisor.add_child, List.getElem?_append, hi]

/-- Witness for C9: position `0` of a one-child supervisor is unchanged by
`add_child`, via `add_child_frame`. -/
theorem add_child_frame_witness :
    (0 : Nat) < 1 ∧
    ((Supervisor.add_child
        { children := [exitsAt 1 0 ⟨0⟩], kill_timeout := 0, poll_interval := 1 }
        (exitsAt 2 0 ⟨0⟩)).children[0]? =
      ([exitsAt 1 0 ⟨0⟩] : List ProcessBehavior)[0]?) :=
  ⟨Nat.one_pos,
   (add_child_frame { children := [exitsAt 1 0 ⟨0⟩], kill_timeout := 0, poll_interval := 1 }
     (exitsAt 2 0 ⟨0⟩)).2.2.2 0 (by simp)⟩

/-- C8: when every registration succeeds, `setup_term_flag` returns `Ok`
with the shared flag initially `false` and handlers registered for exactly
`SIGINT`, `SIGTERM` and `SIGQUIT`, and delivering any of those three
signals sets the flag to `true`; when registering any of the three handlers
fails, the function surfaces an error instead. -/
theorem setup_term_flag_contract (reg : Signal → Except IOError Unit) :
    ((∀ s, reg s = .ok ()) →
      setup_term_flag reg =
        (.ok { flag := false, registered := [.SIGINT, .SIGTERM, .SIGQUIT] },
         { flag := false, registered := [.SIGINT, .SIGTERM, .SIGQUIT] }) ∧
      ∀ s ∈ [Signal.SIGINT, Signal.SIGTERM, Signal.SIGQUIT],
        (deliverSignal { flag := false, registered := [.SIGINT, .SIGTERM, .SIGQUIT] } s).flag =
          true) ∧
    (∀ e, reg .SIGINT = .error e ∨ reg .SIGTERM = .error e ∨ reg .SIGQUIT = .error e →
      ∃ e2, (setup_term_flag reg).1 = .error e2) := by
  constructor
  · intro h
    have h1 := h .SIGINT
    have h2 := h .SIGTERM
    have h3 := h .SIGQUIT
    refine ⟨by simp [setup_term_flag, registerLoop, h1, h2, h3], by decide⟩
  · intro e hd
    rcases hI : reg .SIGINT with eI | uI
    · exact ⟨eI, by simp [setup_term_flag, registerLoop, hI]⟩
    · cases uI
      rcases hT : reg .SIGTERM with eT | uT
      · exact ⟨eT, by simp [setup_term_flag, registerLoop, hI, hT]⟩
      · cases uT
        rcases hQ : reg .SIGQUIT with eQ | uQ
        · exact ⟨eQ, by simp [setup_term_flag, registerLoop, hI, hT, hQ]⟩
        · cases uQ
          rcases hd with h1 | h1 | h1
          · simp [hI] at h1
          · simp [hT] at h1
          · simp [hQ] at h1

/-- Witness for C8: an all-successful registration oracle and an oracle
failing on `SIGQUIT`, via `setup_term_flag_contract`. -/
theorem setup_term_flag_contract_witness :
    (setup_term_flag (fun _ => .ok ()) =
      (.ok { flag := false, registered := [.SIGINT, .SIGTERM, .SIGQUIT] },
       { flag := false, registered := [.SIGINT, .SIGTERM, .SIGQUIT] }) ∧
     ∀ s ∈ [Signal.SIGINT, Signal.SIGTERM, Signal.SIGQUIT],
       (deliverSignal { flag := false, registered := [.SIGINT, .SIGTERM, .SIGQUIT] } s).flag =
         true) ∧
    ∃ e2, (setup_term_flag
      (fun s => if s = Signal.SIGQUIT then .error ⟨7⟩ else .ok ())).1 = .error e2 :=
  ⟨(setup_term_flag_contract (fun _ => .ok ())).1 (fun _ => rfl),
   (setup_term_flag_contract (fun s => if s = Signal.SIGQUIT then .error ⟨7⟩ else .ok ())).2
     ⟨7⟩ (Or.inr (Or.inr rfl))⟩

/-- C10: when registering a handler for a later signal in the sequence
`SIGINT`, `SIGTERM`, `SIGQUIT` fails, `setup_term_flag` returns that error
while the handlers already registered for the earlier signals stay
installed — no rollback is performed. -/
theorem setup_term_flag_no_rollback (reg : Signal → Except IOError Unit) (e : IOError) :
    (reg .SIGINT = .ok () → reg .SIGTERM = .error e →
      setup_term_flag reg = (.error e, { flag := false, registered := [.SIGINT] })) ∧
    (reg .SIGINT = .ok () → reg .SIGTERM = .ok () → reg .SIGQUIT = .error e →
      setup_term_flag reg = (.error e, { flag := false, registered := [.SIGINT, .SIGTERM] })) := by
  constructor
  · intro h1 h2
    simp [setup_term_flag, registerLoop, h1, h2]
  · intro h1 h2 h3
    simp [setup_term_flag, registerLoop, h1, h2, h3]

/-- Witness for C10: oracles failing on `SIGTERM` and on `SIGQUIT`
respectively leave the earlier registrations in place, via
`setup_term_flag_no_rollback`. -/
theorem setup_term_flag_no_rollback_witness :
    setup_term_flag (fun s => if s = Signal.SIGTERM then .error ⟨7⟩ else .ok ()) =
      (.error ⟨7⟩, { flag := false, registered := [.SIGINT] }) ∧
    setup_term_flag (fun s => if s = Signal.SIGQUIT then .error ⟨7⟩ else .ok ()) =
      (.error ⟨7⟩, { flag := false, registered := [.SIGINT, .SIGTERM] }) :=
  ⟨(setup_term_flag_no_rollback (fun s => if s = Signal.SIGTERM then .error ⟨7⟩ else .ok ())
     ⟨7⟩).1 rfl rfl,
   (setup_term_flag_no_rollback (fun s => if s = Signal.SIGQUIT then .error ⟨7⟩ else .ok ())
     ⟨7⟩).2 rfl rfl rfl⟩
